import Mathlib

/-!
Verification of the Everworker voice plugin core (TypeScript) against its
natural-language specification.  Shallow embedding: each definition below is
translated from a function of the repository (`EverworkerVoicePlugin`,
`WebRTCManager`, `AudioPlayer`, `EventEmitter`); machine numbers are modelled
as `Nat`/`Int`/`ℚ`, JS timers as explicit absolute deadlines, fallible code as
`Except`/early return.
-/

/-! ### Message history (`EverworkerVoicePlugin.addMessage`) -/

/-- `MAX_MESSAGES = 100`, the message-history cap of `EverworkerVoicePlugin`. -/
def MAX_MESSAGES : Nat := 100

/-- `EverworkerVoicePlugin.addMessage`: push the message, then
`splice(0, excess)` away the oldest entries if the cap is exceeded.
Polymorphic in the message type (the source stores `Message` records). -/
def addMessage {α : Type} (messages : List α) (message : α) : List α :=
  let pushed := messages ++ [message]
  if pushed.length > MAX_MESSAGES then
    pushed.drop (pushed.length - MAX_MESSAGES)
  else
    pushed

lemma addMessage_eq_drop {α : Type} (l : List α) (m : α) :
    addMessage l m = (l ++ [m]).drop ((l ++ [m]).length - MAX_MESSAGES) := by
  simp only [addMessage]
  by_cases h : (l ++ [m]).length > MAX_MESSAGES
  · rw [if_pos h]
  · rw [if_neg h]
    have h0 : (l ++ [m]).length - MAX_MESSAGES = 0 := by omega
    rw [h0, List.drop_zero]

lemma foldl_addMessage_eq_drop {α : Type} (ms : List α) :
    ms.foldl addMessage [] = ms.drop (ms.length - MAX_MESSAGES) := by
  have hM : MAX_MESSAGES = 100 := rfl
  induction ms using List.reverseRecOn with
  | nil => simp
  | append_singleton ms m ih =>
      rw [List.foldl_append, List.foldl_cons, List.foldl_nil, ih, addMessage_eq_drop]
      rcases lt_or_ge ms.length MAX_MESSAGES with h | h
      · have h0 : ms.length - MAX_MESSAGES = 0 := by omega
        have h1 : (ms ++ [m]).length - MAX_MESSAGES = 0 := by
          simp only [List.length_append, List.length_singleton]; omega
        rw [h0, List.drop_zero, h1, List.drop_zero]
      · have hlen : (ms.drop (ms.length - MAX_MESSAGES)).length = MAX_MESSAGES := by
          rw [List.length_drop]; omega
        have h2 : (ms.drop (ms.length - MAX_MESSAGES) ++ [m]).length - MAX_MESSAGES = 1 := by
          simp only [List.length_append, List.length_singleton, hlen]; omega
        rw [h2]
        have hle1 : (1 : Nat) ≤ (ms.drop (ms.length - MAX_MESSAGES)).length := by
          rw [hlen]; omega
        rw [List.drop_append_of_le_length hle1]
        have hle2 : (ms ++ [m]).length - MAX_MESSAGES ≤ ms.length := by
          simp only [List.length_append, List.length_singleton]; omega
        rw [List.drop_append_of_le_length hle2, List.drop_drop]
        have h3 : ms.length - MAX_MESSAGES + 1 = (ms ++ [m]).length - MAX_MESSAGES := by
          simp only [List.length_append, List.length_singleton]; omega
        rw [h3]

/-- C1 counterexample: after 105 sequential `addMessage` calls the 6th
originally-added message (index 5) is still PRESENT — the five evicted
messages are indices 0–4 — refuting the claim that index 5 is absent. -/
theorem addMessage_claim_counterexample :
    5 ∈ (List.range 105).foldl addMessage [] ∧
    ((List.range 105).foldl addMessage []).length = 100 := by
  rw [foldl_addMessage_eq_drop]
  decide

/-- C1 (amended): every sequence of `addMessage` calls starting from the empty
history keeps at most `MAX_MESSAGES = 100` entries, and the retained entries
are exactly the most recently added ones in original relative order (the
maximal suffix of the pushed sequence); after 105 sequential calls the history
has length 100, the 5th originally-added message (index 4) is absent — as are
indices 0–4 — while the 6th (index 5) and the 105th (index 104) are present. -/
theorem addMessage_history_invariant :
    (∀ (ms : List Nat),
        (ms.foldl addMessage []).length ≤ MAX_MESSAGES ∧
        ms.foldl addMessage [] = ms.drop (ms.length - MAX_MESSAGES)) ∧
    ((List.range 105).foldl addMessage [] = (List.range 105).drop 5 ∧
      ((List.range 105).foldl addMessage []).length = 100 ∧
      4 ∉ (List.range 105).foldl addMessage [] ∧
      5 ∈ (List.range 105).foldl addMessage [] ∧
      104 ∈ (List.range 105).foldl addMessage []) := by
  have hM : MAX_MESSAGES = 100 := rfl
  constructor
  · intro ms
    refine ⟨?_, foldl_addMessage_eq_drop ms⟩
    rw [foldl_addMessage_eq_drop]
    rw [List.length_drop]
    omega
  · refine ⟨?_, ?_, ?_, ?_, ?_⟩ <;>
      · rw [foldl_addMessage_eq_drop]
        decide

/-! ### Configuration validation (`EverworkerVoicePlugin.validateConfig`) -/

/-- `DEFAULT_SESSION_TIMEOUT_MS = 15 * 60 * 1000`. -/
def DEFAULT_SESSION_TIMEOUT_MS : Nat := 15 * 60 * 1000

/-- `DEFAULT_IDLE_TIMEOUT_MS = 5 * 60 * 1000`. -/
def DEFAULT_IDLE_TIMEOUT_MS : Nat := 5 * 60 * 1000

/-- Feature flags as supplied by the caller (`config.features`): `none`
means the key is absent and the default applies.  `sessionTimeout` may be
explicitly `null` (inner `none`), the "disabled" sentinel. -/
structure FeaturesIn where
  sessionTimeout : Option (Option Nat) := none
  idleTimeout : Option Nat := none
  reconnect : Option Bool := none
  reconnectInterval : Option Nat := none
  maxReconnectAttempts : Option Nat := none
  enableIdleCheck : Option Bool := none
  idleCheckMessage : Option String := none
  deriving DecidableEq, Repr

/-- Feature flags after the defaults spread in `validateConfig`. -/
structure Features where
  sessionTimeout : Option Nat
  idleTimeout : Nat
  reconnect : Bool
  reconnectInterval : Nat
  maxReconnectAttempts : Nat
  enableIdleCheck : Bool
  idleCheckMessage : Option String
  deriving DecidableEq, Repr

/-- The `features: { ...defaults, ...config.features }` spread of
`validateConfig`. -/
def applyFeatureDefaults (f : FeaturesIn) : Features where
  sessionTimeout := f.sessionTimeout.getD (some DEFAULT_SESSION_TIMEOUT_MS)
  idleTimeout := f.idleTimeout.getD DEFAULT_IDLE_TIMEOUT_MS
  reconnect := f.reconnect.getD true
  reconnectInterval := f.reconnectInterval.getD 5000
  maxReconnectAttempts := f.maxReconnectAttempts.getD 10
  enableIdleCheck := f.enableIdleCheck.getD true
  idleCheckMessage := f.idleCheckMessage

/-- `EverworkerVoicePlugin.validateConfig` (feature-flag part): apply the
defaults, then clamp `idleTimeout` to `Math.floor(sessionTimeout * 0.8)`
whenever `sessionTimeout` is not the `null` sentinel and
`idleTimeout >= sessionTimeout`. -/
def validateConfig (f : FeaturesIn) : Features :=
  let v := applyFeatureDefaults f
  match v.sessionTimeout with
  | some st => if st ≤ v.idleTimeout then { v with idleTimeout := st * 8 / 10 } else v
  | none => v

/-- The spec's example configuration `{sessionTimeout: 900000, idleTimeout: 850000}`. -/
def exampleFeatures : FeaturesIn :=
  { sessionTimeout := some (some 900000), idleTimeout := some 850000 }

/-- C2 counterexample: the spec's example input `{sessionTimeout: 900000,
idleTimeout: 850000}` does NOT get clamped — `850000 < 900000`, so the clamp
condition `idleTimeout >= sessionTimeout` is false and the idle timeout stays
`850000`, not `720000`. -/
theorem validateConfig_claim_counterexample :
    (validateConfig exampleFeatures).idleTimeout = 850000 ∧ (850000 : Nat) ≠ 720000 := by
  constructor
  · decide
  · decide

/-- C2 (amended): with a non-null `sessionTimeout` `st` and a configured
`idleTimeout` `m ≥ st`, `validateConfig` replaces the idle timeout by
`⌊0.8·st⌋` — e.g. `{sessionTimeout: 900000, idleTimeout: 900000}` yields
`720000`; with `m < st` it is left unchanged — in particular the spec's
example `{sessionTimeout: 900000, idleTimeout: 850000}` stays `850000`. -/
theorem validateConfig_clamps_idleTimeout (st m : Nat) :
    (st ≤ m →
      (validateConfig { sessionTimeout := some (some st), idleTimeout := some m }).idleTimeout
        = st * 8 / 10) ∧
    (m < st →
      (validateConfig { sessionTimeout := some (some st), idleTimeout := some m }).idleTimeout
        = m) := by
  constructor
  · intro h
    simp [validateConfig, applyFeatureDefaults, h]
  · intro h
    simp [validateConfig, applyFeatureDefaults, Nat.not_le.mpr h]

/-- Witness for C2: a configuration that does satisfy the clamp condition,
`{sessionTimeout: 900000, idleTimeout: 900000}`, yields idle timeout `720000`. -/
theorem validateConfig_clamps_idleTimeout_witness :
    (validateConfig { sessionTimeout := some (some 900000), idleTimeout := some 900000 }).idleTimeout
      = 720000 :=
  (validateConfig_clamps_idleTimeout 900000 900000).1 (by decide)

/-! ### Reconnection backoff (`EverworkerVoicePlugin.handleReconnect`) -/

/-- The connection state enum of the plugin. -/
inductive ConnectionState
  | disconnected
  | connecting
  | connected
  | reconnecting
  | error
  deriving DecidableEq, Repr

/-- The JS `x || d` fallback on a number: `0` (falsy) also selects the
default. -/
def jsOrNat (x : Nat) (d : Nat) : Nat := if x = 0 then d else x

/-- The plugin fields read and written by `handleReconnect`. -/
structure ReconnectState where
  reconnectAttempts : Nat
  state : ConnectionState
  deriving DecidableEq, Repr

/-- What `handleReconnect` schedules: nothing, or a reconnect timer with the
computed delay in milliseconds. -/
inductive ReconnectAction
  | nothing
  | scheduled (delayMs : Nat)
  deriving DecidableEq, Repr

/-- `EverworkerVoicePlugin.handleReconnect`: return early if the reconnect
feature is off; transition to `error` once the attempt counter reaches
`maxReconnectAttempts || 10`; otherwise enter `reconnecting` and schedule a
retry after `min((reconnectInterval || 5000) * 2^attempts, 30000)` ms. -/
def handleReconnect (f : Features) (s : ReconnectState) : ReconnectState × ReconnectAction :=
  if !f.reconnect then (s, .nothing)
  else if jsOrNat f.maxReconnectAttempts 10 ≤ s.reconnectAttempts then
    ({ s with state := .error }, .nothing)
  else
    ({ s with state := .reconnecting },
      .scheduled (min (jsOrNat f.reconnectInterval 5000 * 2 ^ s.reconnectAttempts) 30000))

/-- C4 counterexample: (a) with a configured `reconnectInterval` of `0` the
code schedules the retry after `5000` ms (the JS `|| 5000` fallback treats the
configured `0` as absent), not after `min(0·2^0, 30000) = 0` as the claim's
formula demands; (b) with the reconnect feature disabled, reaching the
configured `maxReconnectAttempts` cap (here `10` attempts) does NOT transition
the state to `error` — `handleReconnect` returns before the cap check. -/
theorem handleReconnect_claim_counterexample :
    ((handleReconnect (validateConfig { reconnectInterval := some 0 })
        { reconnectAttempts := 0, state := .connected }).2 = .scheduled 5000 ∧
      (5000 : Nat) ≠ min (0 * 2 ^ 0) 30000) ∧
    ((handleReconnect (validateConfig { reconnect := some false })
        { reconnectAttempts := 10, state := .connected }).1.state = .connected ∧
      ConnectionState.connected ≠ .error) := by
  refine ⟨⟨?_, ?_⟩, ?_, ?_⟩ <;> decide

/-- C4 (amended): when the reconnect feature is enabled and the attempt
counter `n` is below the effective cap (the configured `maxReconnectAttempts`
if nonzero, else 10), `handleReconnect` enters `reconnecting` and schedules
the next attempt after `min(base · 2^n, 30000)` ms, where `base` is the
configured `reconnectInterval` if nonzero, else 5000; once the counter has
reached the cap it transitions to `error` and schedules nothing. -/
theorem handleReconnect_backoff (f : Features) (s : ReconnectState)
    (hrec : f.reconnect = true) :
    (s.reconnectAttempts < jsOrNat f.maxReconnectAttempts 10 →
      (handleReconnect f s).1.state = .reconnecting ∧
      (handleReconnect f s).2
        = .scheduled (min (jsOrNat f.reconnectInterval 5000 * 2 ^ s.reconnectAttempts) 30000)) ∧
    (jsOrNat f.maxReconnectAttempts 10 ≤ s.reconnectAttempts →
      (handleReconnect f s).1.state = .error ∧
      (handleReconnect f s).2 = .nothing) := by
  constructor
  · intro h
    simp [handleReconnect, hrec, Nat.not_le.mpr h]
  · intro h
    simp [handleReconnect, hrec, h]

/-- Witness for C4: with the default configuration (base 5000, cap 10),
attempt 0 schedules a retry after `min(5000 · 2^0, 30000) = 5000` ms, and an
attempt counter of 10 transitions to `error` with nothing scheduled. -/
theorem handleReconnect_backoff_witness :
    ((handleReconnect (validateConfig {}) { reconnectAttempts := 0, state := .disconnected }).2
        = .scheduled (min (5000 * 2 ^ 0) 30000)) ∧
    (handleReconnect (validateConfig {}) { reconnectAttempts := 10, state := .disconnected }).1.state
        = .error :=
  ⟨((handleReconnect_backoff (validateConfig {})
      { reconnectAttempts := 0, state := .disconnected } (by decide)).1 (by decide)).2,
    ((handleReconnect_backoff (validateConfig {})
      { reconnectAttempts := 10, state := .disconnected } (by decide)).2 (by decide)).1⟩

/-! ### Text sending (`EverworkerVoicePlugin.sendMessage`,
`WebRTCManager.sendTextMessage`) -/

/-- Failure conditions of the `sendMessage` path, one per `throw new Error`
site: "Please start a session first", "Not connected", "Data channel not
ready for sending messages" (thrown inside `WebRTCManager.sendTextMessage`),
and "No communication channel available". -/
inductive SendError
  | startSessionFirst
  | notConnected
  | dataChannelNotReady
  | noChannel
  deriving DecidableEq, Repr

/-- Which delivery path a successful `sendMessage` used. -/
inductive SendOutcome
  | sentViaVoice
  | sentViaTransport
  deriving DecidableEq, Repr

/-- The plugin fields `sendMessage` consults: the session flag, the
connection state, the voice engine (`some dataChannelOpen` when `this.webrtc`
exists, `none` otherwise) and whether a transport adapter (`this.connection`)
exists. -/
structure SendState where
  sessionActive : Bool
  state : ConnectionState
  webrtc : Option Bool
  connection : Bool
  deriving DecidableEq, Repr

/-- `WebRTCManager.sendTextMessage`: throws unless the data channel exists
and is `open`; otherwise sends `conversation.item.create` + `response.create`
over it. -/
def sendTextMessage (dataChannelOpen : Bool) : Except SendError Unit :=
  if !dataChannelOpen then .error .dataChannelNotReady else .ok ()

/-- `EverworkerVoicePlugin.sendMessage` (delivery decision): reject without an
active session, reject when not `connected`; then send through the voice
engine when it exists (`WebRTCManager.sendTextMessage`, which itself throws
when the data channel is not open), else through the transport adapter, else
fail with "No communication channel available". -/
def sendMessage (st : SendState) : Except SendError SendOutcome :=
  if !st.sessionActive then .error .startSessionFirst
  else if st.state ≠ ConnectionState.connected then .error .notConnected
  else
    match st.webrtc with
    | some dcOpen =>
        match sendTextMessage dcOpen with
        | .ok _ => .ok .sentViaVoice
        | .error e => .error e
    | none => if st.connection then .ok .sentViaTransport else .error .noChannel

/-- C3 counterexample: with an active session, `connected` state, a voice
engine whose data channel is closed, AND an existing transport adapter,
`sendMessage` does NOT fall back to the transport — it fails with the
"data channel not ready" condition from `WebRTCManager.sendTextMessage`. -/
theorem sendMessage_claim_counterexample :
    sendMessage ⟨true, .connected, some false, true⟩ = .error .dataChannelNotReady ∧
    sendMessage ⟨true, .connected, some false, true⟩ ≠ .ok .sentViaTransport := by
  constructor
  · rfl
  · simp [sendMessage, sendTextMessage]

/-- C3 (amended): `sendMessage` rejects with "start a session first" when no
session is active; rejects with "not connected" when a session is active but
the state is not `connected`; when active and connected it delivers via the
voice engine's data channel if the engine exists and the channel is open,
fails with "data channel not ready" if the engine exists but its channel is
not open (even when a transport adapter exists — there is no fallback), falls
back to the transport's `sendMessage` path only when NO voice engine exists,
and fails with "no channel" when neither a voice engine nor a transport
exists. -/
theorem sendMessage_error_handling (st : SendState) :
    (st.sessionActive = false → sendMessage st = .error .startSessionFirst) ∧
    (st.sessionActive = true → st.state ≠ .connected →
      sendMessage st = .error .notConnected) ∧
    (st.sessionActive = true → st.state = .connected →
      st.webrtc = some true → sendMessage st = .ok .sentViaVoice) ∧
    (st.sessionActive = true → st.state = .connected →
      st.webrtc = some false → sendMessage st = .error .dataChannelNotReady) ∧
    (st.sessionActive = true → st.state = .connected →
      st.webrtc = none → st.connection = true → sendMessage st = .ok .sentViaTransport) ∧
    (st.sessionActive = true → st.state = .connected →
      st.webrtc = none → st.connection = false → sendMessage st = .error .noChannel) := by
  refine ⟨?_, ?_, ?_, ?_, ?_, ?_⟩
  · intro h1
    simp [sendMessage, h1]
  · intro h1 h2
    simp [sendMessage, h1, h2]
  · intro h1 h2 h3
    simp [sendMessage, sendTextMessage, h1, h2, h3]
  · intro h1 h2 h3
    simp [sendMessage, sendTextMessage, h1, h2, h3]
  · intro h1 h2 h3 h4
    simp [sendMessage, h1, h2, h3, h4]
  · intro h1 h2 h3 h4
    simp [sendMessage, h1, h2, h3, h4]

/-- Witness for C3 (amended): a fully wired state (active session, connected,
open data channel) sends via the voice path. -/
theorem sendMessage_error_handling_witness :
    sendMessage ⟨true, .connected, some true, true⟩ = .ok .sentViaVoice :=
  (sendMessage_error_handling ⟨true, .connected, some true, true⟩).2.2.1 rfl rfl rfl

/-! ### Audio output scheduler (`AudioPlayer.play` in `WebRTCManager.ts`)

Audio-clock times and samples are modelled over `ℚ` (the JS numbers here are
IEEE doubles; division by the power of two 32768 is exact even there). -/

/-- The `AudioPlayer` state: the monotonically advancing `nextStartTime`
cursor. -/
structure AudioPlayerState where
  nextStartTime : ℚ
  deriving DecidableEq, Repr

/-- What one `play` call produces: the converted samples, the scheduled
`source.start` time, and the buffer duration (`length / 24000` seconds at
the fixed 24kHz rate). -/
structure PlayResult where
  samples : List ℚ
  startTime : ℚ
  duration : ℚ
  deriving DecidableEq, Repr

/-- The PCM16 → Float32 conversion loop of `AudioPlayer.play`:
`float32[i] = pcm16[i] / 32768`. -/
def pcm16ToFloat32 (pcm16 : List ℤ) : List ℚ :=
  pcm16.map (fun (s : ℤ) => (s : ℚ) / 32768)

/-- `AudioPlayer.play`: convert the chunk, schedule it at
`max(currentTime, nextStartTime)` and advance the cursor by the buffer's
duration. -/
def AudioPlayer.play (st : AudioPlayerState) (currentTime : ℚ) (audioData : List ℤ) :
    AudioPlayerState × PlayResult :=
  let float32 := pcm16ToFloat32 audioData
  let duration : ℚ := (float32.length : ℚ) / 24000
  let startTime := max currentTime st.nextStartTime
  ({ nextStartTime := startTime + duration },
    { samples := float32, startTime := startTime, duration := duration })

/-- A sequence of chunks handed to the scheduler, each arriving at some
audio-context `currentTime`, played in arrival order. -/
def playAll (st : AudioPlayerState) : List (ℚ × List ℤ) → AudioPlayerState × List PlayResult
  | [] => (st, [])
  | (ct, chunk) :: rest =>
      let stepRes := AudioPlayer.play st ct chunk
      let restRes := playAll stepRes.1 rest
      (restRes.1, stepRes.2 :: restRes.2)

lemma pcm16ToFloat32_length (l : List ℤ) : (pcm16ToFloat32 l).length = l.length := by
  simp only [pcm16ToFloat32, List.length_map]

lemma play_duration_nonneg (st : AudioPlayerState) (ct : ℚ) (chunk : List ℤ) :
    0 ≤ (AudioPlayer.play st ct chunk).2.duration := by
  simp only [AudioPlayer.play]
  positivity

lemma play_start_ge_cursor (st : AudioPlayerState) (ct : ℚ) (chunk : List ℤ) :
    st.nextStartTime ≤ (AudioPlayer.play st ct chunk).2.startTime :=
  le_max_right _ _

lemma play_cursor_eq (st : AudioPlayerState) (ct : ℚ) (chunk : List ℤ) :
    (AudioPlayer.play st ct chunk).1.nextStartTime
      = (AudioPlayer.play st ct chunk).2.startTime + (AudioPlayer.play st ct chunk).2.duration :=
  rfl

lemma playAll_head_start (st : AudioPlayerState) (inputs : List (ℚ × List ℤ)) :
    ∀ r ∈ ((playAll st inputs).2).head?, st.nextStartTime ≤ r.startTime := by
  cases inputs with
  | nil => simp [playAll]
  | cons p rest =>
      obtain ⟨ct, chunk⟩ := p
      intro r hr
      simp only [playAll, List.head?_cons, Option.mem_def, Option.some.injEq] at hr
      subst hr
      exact play_start_ge_cursor st ct chunk

lemma playAll_gapless (st : AudioPlayerState) (inputs : List (ℚ × List ℤ)) :
    ((playAll st inputs).2).Chain' (fun a b => a.startTime + a.duration ≤ b.startTime) := by
  induction inputs generalizing st with
  | nil => simp [playAll]
  | cons p rest ih =>
      obtain ⟨ct, chunk⟩ := p
      rw [playAll, List.chain'_cons']
      refine ⟨?_, ih _⟩
      intro b hb
      have hhead := playAll_head_start (AudioPlayer.play st ct chunk).1 rest b hb
      rw [play_cursor_eq] at hhead
      exact hhead

/-- C9: each PCM16 chunk is converted by dividing every 16-bit sample by
32768, is scheduled at `max(currentTime, nextStartTime)` with duration
`length / 24000`, and the cursor advances to exactly `startTime + duration`,
hence never decreases; consequently, for every input sequence the scheduled
chunks play gaplessly in arrival order, each starting no earlier than the
previous one ends. -/
theorem audioPlayer_gapless_scheduling :
    (∀ (st : AudioPlayerState) (ct : ℚ) (chunk : List ℤ),
      (AudioPlayer.play st ct chunk).2.samples = chunk.map (fun (s : ℤ) => (s : ℚ) / 32768) ∧
      (AudioPlayer.play st ct chunk).2.startTime = max ct st.nextStartTime ∧
      (AudioPlayer.play st ct chunk).2.duration = (chunk.length : ℚ) / 24000 ∧
      (AudioPlayer.play st ct chunk).1.nextStartTime
        = (AudioPlayer.play st ct chunk).2.startTime + (AudioPlayer.play st ct chunk).2.duration ∧
      st.nextStartTime ≤ (AudioPlayer.play st ct chunk).1.nextStartTime) ∧
    (∀ (st : AudioPlayerState) (inputs : List (ℚ × List ℤ)),
      ((playAll st inputs).2).Chain' (fun a b => a.startTime + a.duration ≤ b.startTime)) := by
  constructor
  · intro st ct chunk
    refine ⟨rfl, rfl,
      by simp only [AudioPlayer.play, pcm16ToFloat32_length], rfl, ?_⟩
    calc st.nextStartTime ≤ (AudioPlayer.play st ct chunk).2.startTime :=
          play_start_ge_cursor st ct chunk
      _ ≤ (AudioPlayer.play st ct chunk).2.startTime + (AudioPlayer.play st ct chunk).2.duration :=
          le_add_of_nonneg_right (play_duration_nonneg st ct chunk)
      _ = (AudioPlayer.play st ct chunk).1.nextStartTime := (play_cursor_eq st ct chunk).symm
  · exact playAll_gapless

/-! ### Event emitter (`EventEmitter.once` / `EventEmitter.emit`) -/

/-- A subscriber, identified by `id`; `throws` says whether invoking it
raises an exception. -/
structure Handler where
  id : Nat
  throws : Bool
  deriving DecidableEq, Repr

/-- An entry of the per-event handler `Set`: either a handler registered
with `on`, or the self-removing closure created by `once`. -/
inductive Entry
  | plain (h : Handler)
  | onceWrap (h : Handler)
  deriving DecidableEq, Repr

/-- The handler set for one event name, in insertion order (JS `Set`
iteration order). -/
abbrev Handlers := List Entry

/-- The handler id an entry invokes. -/
def entryId : Entry → Nat
  | .plain h => h.id
  | .onceWrap h => h.id

/-- `EventEmitter.once`: wrap the handler in a fresh self-removing closure
and add it (a fresh closure is never already in the `Set`). -/
def EventEmitter.once (hs : Handlers) (h : Handler) : Handlers :=
  hs ++ [.onceWrap h]

/-- Run one entry inside `emit`'s per-handler `try/catch`.  A `plain` entry
leaves the set unchanged (an exception is caught and logged).  A `onceWrap`
entry runs `handler(...args)` and then `off(event, onceHandler)` — but when
the handler throws, the exception propagates out of the wrapper before the
`off` call, so the wrapper is NOT removed. -/
def runEntry (hs : Handlers) (e : Entry) : Handlers × Nat :=
  match e with
  | .plain h => (hs, h.id)
  | .onceWrap h => if h.throws then (hs, h.id) else (hs.erase e, h.id)

/-- One step of `emit`'s `handlers.forEach`. -/
def emitStep (acc : Handlers × List Nat) (e : Entry) : Handlers × List Nat :=
  let r := runEntry acc.1 e
  (r.1, acc.2 ++ [r.2])

/-- `EventEmitter.emit`: invoke every registered entry in insertion order
(the only mutations during the loop are self-removals, which do not affect
the entries still to be visited), returning the new handler set and the ids
invoked. -/
def EventEmitter.emit (hs : Handlers) : Handlers × List Nat :=
  hs.foldl emitStep (hs, [])

/-- The handler set after `n` consecutive `emit`s. -/
def emitN : Nat → Handlers → Handlers
  | 0, hs => hs
  | n + 1, hs => emitN n (EventEmitter.emit hs).1

lemma runEntry_id (hs : Handlers) (e : Entry) : (runEntry hs e).2 = entryId e := by
  cases e with
  | plain h => rfl
  | onceWrap h =>
      by_cases hth : h.throws <;> simp [runEntry, entryId, hth]

lemma foldl_emitStep_invocations (snapshot : Handlers) :
    ∀ (s : Handlers) (l : List Nat),
      (snapshot.foldl emitStep (s, l)).2 = l ++ snapshot.map entryId := by
  induction snapshot with
  | nil => intro s l; simp
  | cons e es ih =>
      intro s l
      rw [List.foldl_cons]
      show (es.foldl emitStep ((runEntry s e).1, l ++ [(runEntry s e).2])).2 = _
      rw [ih, runEntry_id]
      simp

lemma foldl_emitStep_keeps_throwing_wrapper (h : Handler) (hth : h.throws = true)
    (snapshot : Handlers) :
    ∀ (s : Handlers) (l : List Nat), Entry.onceWrap h ∈ s →
      Entry.onceWrap h ∈ (snapshot.foldl emitStep (s, l)).1 := by
  induction snapshot with
  | nil => intro s l hm; simpa using hm
  | cons e es ih =>
      intro s l hm
      rw [List.foldl_cons]
      refine ih _ _ ?_
      show Entry.onceWrap h ∈ (runEntry s e).1
      cases e with
      | plain h' => exact hm
      | onceWrap h' =>
          by_cases hth' : h'.throws
          · simpa [runEntry, hth'] using hm
          · have hne : Entry.onceWrap h ≠ Entry.onceWrap h' := by
              intro hcontra
              cases hcontra
              rw [hth] at hth'
              exact hth' rfl
            simp only [runEntry, hth', if_false, Bool.false_eq_true]
            exact (List.mem_erase_of_ne hne).mpr hm

lemma emit_keeps_throwing_wrapper (h : Handler) (hth : h.throws = true)
    (hs : Handlers) (hm : Entry.onceWrap h ∈ hs) :
    Entry.onceWrap h ∈ (EventEmitter.emit hs).1 :=
  foldl_emitStep_keeps_throwing_wrapper h hth hs hs [] hm

lemma emitN_keeps_throwing_wrapper (h : Handler) (hth : h.throws = true) :
    ∀ (n : Nat) (hs : Handlers), Entry.onceWrap h ∈ hs → Entry.onceWrap h ∈ emitN n hs := by
  intro n
  induction n with
  | zero => intro hs hm; exact hm
  | succ n ih => intro hs hm; exact ih _ (emit_keeps_throwing_wrapper h hth hs hm)

/-- C10: a handler registered with `once` that throws on invocation is never
removed — `emit` catches the exception thrown before the wrapper's
self-removing `off` call — so after any number `n` of emits the wrapper is
still registered and the handler is invoked again by the next emit; by
contrast a normally-returning `once` handler is removed by its first
invocation and a subsequent emit invokes nothing. -/
theorem once_throwing_handler_reinvoked (hs0 : Handlers) (h : Handler)
    (hth : h.throws = true) :
    (∀ n : Nat, Entry.onceWrap h ∈ emitN n (EventEmitter.once hs0 h)) ∧
    (∀ n : Nat, h.id ∈ (EventEmitter.emit (emitN n (EventEmitter.once hs0 h))).2) ∧
    (EventEmitter.emit [Entry.onceWrap ⟨0, false⟩] = ([], [0]) ∧
      EventEmitter.emit ([] : Handlers) = ([], [])) := by
  have hmem0 : Entry.onceWrap h ∈ EventEmitter.once hs0 h := by
    simp [EventEmitter.once]
  refine ⟨?_, ?_, by decide, by decide⟩
  · intro n
    exact emitN_keeps_throwing_wrapper h hth n _ hmem0
  · intro n
    have hmem : Entry.onceWrap h ∈ emitN n (EventEmitter.once hs0 h) :=
      emitN_keeps_throwing_wrapper h hth n _ hmem0
    rw [EventEmitter.emit, foldl_emitStep_invocations]
    simp only [List.nil_append]
    exact List.mem_map.mpr ⟨Entry.onceWrap h, hmem, rfl⟩

/-- Witness for C10: a throwing handler registered with `once` on an empty
emitter is still registered after one emit, and the second emit invokes it
again. -/
theorem once_throwing_handler_reinvoked_witness :
    Entry.onceWrap ⟨1, true⟩ ∈ emitN 1 (EventEmitter.once [] ⟨1, true⟩) ∧
    1 ∈ (EventEmitter.emit (emitN 1 (EventEmitter.once [] ⟨1, true⟩))).2 :=
  ⟨(once_throwing_handler_reinvoked [] ⟨1, true⟩ rfl).1 1,
    (once_throwing_handler_reinvoked [] ⟨1, true⟩ rfl).2.1 1⟩

/-! ### Realtime engine data-channel protocol (`WebRTCManager`) -/

/-- The engine-local `VoiceSession` fields carried into the `session.update`
payload. -/
structure VoiceSessionInfo where
  model : String
  voice : String
  instructions : String
  tools : List String
  deriving DecidableEq, Repr

/-- The `session.update` payload built by `WebRTCManager.sendSessionUpdate`:
model/voice/instructions from the `VoiceSession`, fixed `pcm16` audio
formats, `whisper-1` input transcription, and fixed `server_vad` turn
detection (threshold 0.5 — stored here scaled by 100 to stay in `Nat` —
prefix padding 300ms, silence duration 200ms). -/
structure SessionUpdatePayload where
  model : String
  voice : String
  instructions : String
  input_audio_format : String
  output_audio_format : String
  transcription_model : String
  turn_detection_type : String
  threshold_times_100 : Nat
  prefix_padding_ms : Nat
  silence_duration_ms : Nat
  tools : List String
  deriving DecidableEq, Repr

/-- Outbound events the engine can send over the data channel. -/
inductive OutEvent
  | sessionUpdate (payload : SessionUpdatePayload)
  | conversationItemCreate (text : String)
  | responseCreate
  | inputAudioBufferClear
  | outputAudioBufferClear
  | functionCallOutput (success : Bool)
  deriving DecidableEq, Repr

/-- Inbound realtime events dispatched by
`WebRTCManager.handleRealtimeEvent` (cases that only `emit` application
events are collapsed into their tag). -/
inductive InEvent
  | sessionCreated
  | sessionUpdated
  | speechStarted
  | speechStopped
  | transcriptionCompleted (transcript : String)
  | responseTextDone (text : String)
  | responseDone
  | functionCallArgumentsDone (success : Bool)
  | errorEvent
  | other (tag : String)
  deriving DecidableEq, Repr

/-- Inputs that make the engine send data-channel traffic: an inbound event
on `onmessage`, a `sendTextMessage` call, or the `sendStopEvents` step of
`cleanup`. -/
inductive EngineInput
  | recv (e : InEvent)
  | sendText (text : String)
  | stopEvents
  deriving DecidableEq, Repr

/-- The engine fields consulted before sending: the `VoiceSession` (absent
before initialization / after cleanup) and whether the data channel is open. -/
structure EngineState where
  session : Option VoiceSessionInfo
  dataChannelOpen : Bool
  deriving DecidableEq, Repr

/-- The `session.update` event `sendSessionUpdate` constructs from the
session data and its fixed constants. -/
def sessionUpdateEvent (s : VoiceSessionInfo) : OutEvent :=
  .sessionUpdate
    { model := s.model
      voice := s.voice
      instructions := s.instructions
      input_audio_format := "pcm16"
      output_audio_format := "pcm16"
      transcription_model := "whisper-1"
      turn_detection_type := "server_vad"
      threshold_times_100 := 50
      prefix_padding_ms := 300
      silence_duration_ms := 200
      tools := s.tools }

/-- `WebRTCManager.sendEvent`: events only leave when the data channel is
open. -/
def sendEvent (st : EngineState) (e : OutEvent) : List OutEvent :=
  if st.dataChannelOpen then [e] else []

/-- `WebRTCManager.sendSessionUpdate`: bail out without a session or
without an open data channel, otherwise send exactly one `session.update`. -/
def sendSessionUpdate (st : EngineState) : List OutEvent :=
  match st.session with
  | none => []
  | some s => if st.dataChannelOpen then sendEvent st (sessionUpdateEvent s) else []

/-- `WebRTCManager.handleRealtimeEvent`, restricted to the data-channel
traffic each case produces.  Only the `session.created` case calls
`sendSessionUpdate`; `function_call_arguments.done` answers with a
`function_call_output` conversation item (via `handleToolCall`); every other
case emits application events or nothing. -/
def handleRealtimeEvent (st : EngineState) (e : InEvent) : List OutEvent :=
  match e with
  | .sessionCreated => sendSessionUpdate st
  | .functionCallArgumentsDone ok => sendEvent st (.functionCallOutput ok)
  | _ => []

/-- Data-channel traffic produced by one engine input:
`handleRealtimeEvent` for inbound events; `sendTextMessage` sends a
`conversation.item.create` followed by `response.create` (and throws,
sending nothing, when the channel is not open); `sendStopEvents` sends the
two buffer-clear events. -/
def engineStep (st : EngineState) (i : EngineInput) : List OutEvent :=
  match i with
  | .recv e => handleRealtimeEvent st e
  | .sendText t =>
      if st.dataChannelOpen then
        sendEvent st (.conversationItemCreate t) ++ sendEvent st .responseCreate
      else []
  | .stopEvents => sendEvent st .inputAudioBufferClear ++ sendEvent st .outputAudioBufferClear

/-- The concatenated outbound traffic of a run (the session/channel fields
consulted by the send paths are not themselves mutated by any of these
inputs). -/
def runEngine (st : EngineState) (inputs : List EngineInput) : List OutEvent :=
  (inputs.map (engineStep st)).flatten

/-- Whether an outbound event is a `session.update`. -/
def isSessionUpdate : OutEvent → Bool
  | .sessionUpdate _ => true
  | _ => false

lemma engineStep_sessionUpdate (st : EngineState) (i : EngineInput) (e : OutEvent)
    (he : e ∈ engineStep st i) (hu : isSessionUpdate e = true) :
    i = .recv .sessionCreated := by
  cases i with
  | recv ev =>
      cases ev with
      | sessionCreated => rfl
      | functionCallArgumentsDone ok =>
          exfalso
          by_cases hdc : st.dataChannelOpen
          · simp [engineStep, handleRealtimeEvent, sendEvent, hdc] at he
            subst he
            simp [isSessionUpdate] at hu
          · simp [engineStep, handleRealtimeEvent, sendEvent, hdc] at he
      | sessionUpdated => simp [engineStep, handleRealtimeEvent] at he
      | speechStarted => simp [engineStep, handleRealtimeEvent] at he
      | speechStopped => simp [engineStep, handleRealtimeEvent] at he
      | transcriptionCompleted t => simp [engineStep, handleRealtimeEvent] at he
      | responseTextDone t => simp [engineStep, handleRealtimeEvent] at he
      | responseDone => simp [engineStep, handleRealtimeEvent] at he
      | errorEvent => simp [engineStep, handleRealtimeEvent] at he
      | other tag => simp [engineStep, handleRealtimeEvent] at he
  | sendText t =>
      exfalso
      by_cases hdc : st.dataChannelOpen
      · simp [engineStep, sendEvent, hdc] at he
        rcases he with rfl | rfl <;> simp [isSessionUpdate] at hu
      · simp [engineStep, hdc] at he
  | stopEvents =>
      exfalso
      by_cases hdc : st.dataChannelOpen
      · simp [engineStep, sendEvent, hdc] at he
        rcases he with rfl | rfl <;> simp [isSessionUpdate] at hu
      · simp [engineStep, sendEvent, hdc] at he

/-- C5: (a) in every run of the engine, no `session.update` appears in the
outbound data-channel traffic unless a `session.created` event has been
received — in particular a run containing no `session.created` sends no
`session.update` at all; (b) on receiving `session.created` with a session
present and the channel open, the engine's handler sends exactly the one
`session.update` carrying model/voice/instructions, `pcm16` formats,
`whisper-1` transcription and the fixed `server_vad` parameters — and no
other outbound event. -/
theorem sessionUpdate_only_after_sessionCreated (st : EngineState)
    (s : VoiceSessionInfo) (inputs : List EngineInput)
    (hno : EngineInput.recv .sessionCreated ∉ inputs) :
    (∀ e ∈ runEngine st inputs, isSessionUpdate e = false) ∧
    (st.session = some s → st.dataChannelOpen = true →
      engineStep st (.recv .sessionCreated) = [sessionUpdateEvent s]) := by
  constructor
  · intro e he
    by_contra hcontra
    have hu : isSessionUpdate e = true := by
      cases hview : isSessionUpdate e
      · exact absurd hview hcontra
      · rfl
    simp only [runEngine, List.mem_flatten, List.mem_map] at he
    obtain ⟨l, ⟨i, hi, hstep⟩, hel⟩ := he
    subst hstep
    exact hno (engineStep_sessionUpdate st i e hel hu ▸ hi)
  · intro hsess hdc
    simp [engineStep, handleRealtimeEvent, sendSessionUpdate, sendEvent, hsess, hdc]

/-- Witness for C5: a run that only exchanges text and receives speech
events sends no `session.update`, and an initialized engine with an open
channel answers `session.created` with exactly one `session.update`. -/
theorem sessionUpdate_only_after_sessionCreated_witness :
    (∀ e ∈ runEngine ⟨some ⟨"gpt", "echo", "hi", []⟩, true⟩
        [.sendText "hello", .recv .speechStarted, .recv .responseDone, .stopEvents],
      isSessionUpdate e = false) ∧
    engineStep ⟨some ⟨"gpt", "echo", "hi", []⟩, true⟩ (.recv .sessionCreated)
      = [sessionUpdateEvent ⟨"gpt", "echo", "hi", []⟩] :=
  ⟨(sessionUpdate_only_after_sessionCreated ⟨some ⟨"gpt", "echo", "hi", []⟩, true⟩
      ⟨"gpt", "echo", "hi", []⟩ _ (by decide)).1,
    (sessionUpdate_only_after_sessionCreated ⟨some ⟨"gpt", "echo", "hi", []⟩, true⟩
      ⟨"gpt", "echo", "hi", []⟩ [] (by decide)).2 rfl rfl⟩

/-! ### Session lifecycle, idle timers and session ids
(`EverworkerVoicePlugin`)

Timers are modelled as absolute deadlines (ms); `elapse` advances the clock
and fires due timers in deadline order, exactly as the one-shot `setTimeout`
callbacks of the source run. -/

/-- `SESSION_WARNING_BEFORE_MS = 60 * 1000`. -/
def SESSION_WARNING_BEFORE_MS : Nat := 60 * 1000

/-- `IDLE_GRACE_PERIOD_MS = 60 * 1000`. -/
def IDLE_GRACE_PERIOD_MS : Nat := 60 * 1000

/-- The default idle check-in text used when `features.idleCheckMessage` is
not configured. -/
def idleCheckMessageDefault : String :=
  "Are you still there? Do you have any other questions or shall we finish the session?"

/-- Message roles (`Message.type`). -/
inductive Role
  | user
  | assistant
  | system
  deriving DecidableEq, Repr

/-- A chat message: role, content, and the `metadata.automated` marker. -/
structure Message where
  role : Role
  content : String
  automated : Bool
  deriving DecidableEq, Repr

/-- Events emitted by the plugin (`this.emit(...)` and `setState`). -/
inductive PluginEvent
  | stateChange (s : ConnectionState)
  | sessionStarted
  | sessionEnded
  | sessionTimeoutWarning
  | sessionTimeoutFired
  | idleWarning
  | idleTimeoutFired
  deriving DecidableEq, Repr

/-- The plugin fields relevant to the session lifecycle, with `now` the
current clock (ms) and each `setTimeout` handle as an absolute deadline. -/
structure PluginState where
  now : Nat
  state : ConnectionState
  sessionActive : Bool
  sessionStartTime : Option Nat
  sessionId : Option String
  lastActivityTime : Option Nat
  idleWarningShown : Bool
  sessionWarningTimer : Option Nat
  sessionTimeoutTimer : Option Nat
  idleTimeoutTimer : Option Nat
  idleGracePeriodTimer : Option Nat
  messages : List Message
  emitted : List PluginEvent
  deriving DecidableEq, Repr

/-- The fresh plugin state before any session. -/
def initialState : PluginState :=
  { now := 0, state := .disconnected, sessionActive := false,
    sessionStartTime := none, sessionId := none, lastActivityTime := none,
    idleWarningShown := false, sessionWarningTimer := none,
    sessionTimeoutTimer := none, idleTimeoutTimer := none,
    idleGracePeriodTimer := none, messages := [], emitted := [] }

/-- The lowercase hex digit for `v.toString(16)`, `v < 16`. -/
def hexChar (n : Nat) : Char :=
  if n < 10 then Char.ofNat (48 + n) else Char.ofNat (87 + n)

/-- The template `'xxxxxxxx-xxxx-4xxx-yxxx-xxxxxxxxxxxx'` of
`generateSessionId`. -/
def uuidTemplate : List Char :=
  ['x','x','x','x','x','x','x','x','-','x','x','x','x','-','4','x','x','x','-',
   'y','x','x','x','-','x','x','x','x','x','x','x','x','x','x','x','x']

/-- The `replace(/[xy]/g, ...)` loop of `generateSessionId`: each `x` or `y`
consumes one random nibble `r = Math.random()*16 | 0`; `x` becomes `r` in
hex, `y` becomes `(r & 0x3 | 0x8)` in hex; other characters are kept. -/
def fillUuid (rand : Nat → Fin 16) : List Char → Nat → List Char
  | [], _ => []
  | c :: rest, i =>
      if c = 'x' then hexChar (rand i).val :: fillUuid rand rest (i + 1)
      else if c = 'y' then
        hexChar (((rand i).val &&& 3) ||| 8) :: fillUuid rand rest (i + 1)
      else c :: fillUuid rand rest i

/-- `EverworkerVoicePlugin.generateSessionId`, with `rand` the stream of
random nibbles. -/
def generateSessionId (rand : Nat → Fin 16) : String :=
  String.mk (fillUuid rand uuidTemplate 0)

/-- A fixed random stream, for concrete runs. -/
def rand0 : Nat → Fin 16 := fun _ => 0

/-- `clearSessionTimeout`. -/
def clearSessionTimeoutP (s : PluginState) : PluginState :=
  { s with sessionWarningTimer := none, sessionTimeoutTimer := none }

/-- `clearIdleTimeout` (clears both the idle and the grace timer). -/
def clearIdleTimeoutP (s : PluginState) : PluginState :=
  { s with idleTimeoutTimer := none, idleGracePeriodTimer := none }

/-- `setupSessionTimeout`: clear existing timers; a `null` session timeout
disables the hard timeout; otherwise arm the warning timer at
`timeout − 60s` (only when that is positive) and the hard timer at
`timeout`, where `timeout = sessionTimeout || DEFAULT`. -/
def setupSessionTimeout (f : Features) (s : PluginState) : PluginState :=
  let s0 := clearSessionTimeoutP s
  match f.sessionTimeout with
  | none => s0
  | some st =>
      let timeoutMs := jsOrNat st DEFAULT_SESSION_TIMEOUT_MS
      let s1 :=
        if SESSION_WARNING_BEFORE_MS < timeoutMs then
          { s0 with
              sessionWarningTimer := some (s.now + (timeoutMs - SESSION_WARNING_BEFORE_MS)) }
        else s0
      { s1 with sessionTimeoutTimer := some (s.now + timeoutMs) }

/-- `setupIdleTimeout`: no-op when idle checking is disabled; otherwise
clear existing idle timers, record the activity time, and arm the idle
timer at `now + (idleTimeout || DEFAULT)`. -/
def setupIdleTimeout (f : Features) (s : PluginState) : PluginState :=
  if f.enableIdleCheck = false then s
  else
    let idleTimeout := jsOrNat f.idleTimeout DEFAULT_IDLE_TIMEOUT_MS
    let s1 := clearIdleTimeoutP s
    { s1 with lastActivityTime := some s.now, idleWarningShown := false,
              idleTimeoutTimer := some (s.now + idleTimeout) }

/-- `resetActivity`: only with an active session and idle checking enabled;
records activity, clears the warning flag and the grace timer, and re-arms
the idle timer at `now + (idleTimeout || DEFAULT)`. -/
def resetActivity (f : Features) (s : PluginState) : PluginState :=
  if s.sessionActive = false then s
  else if f.enableIdleCheck = false then s
  else
    { s with lastActivityTime := some s.now, idleWarningShown := false,
             idleGracePeriodTimer := none,
             idleTimeoutTimer :=
               some (s.now + jsOrNat f.idleTimeout DEFAULT_IDLE_TIMEOUT_MS) }

/-- `handleIdleWarning`: mark the warning shown, append the automated
assistant check-in message (the configured `idleCheckMessage` or the
default), emit `session:idle-warning`, and arm the grace timer at
`now + IDLE_GRACE_PERIOD_MS`. -/
def handleIdleWarning (f : Features) (s : PluginState) : PluginState :=
  let s1 := { s with idleWarningShown := true }
  let checkIn : Message :=
    { role := .assistant,
      content := f.idleCheckMessage.getD idleCheckMessageDefault,
      automated := true }
  let s2 := { s1 with messages := addMessage s1.messages checkIn }
  { s2 with emitted := s2.emitted ++ [PluginEvent.idleWarning],
            idleGracePeriodTimer := some (s.now + IDLE_GRACE_PERIOD_MS) }

/-- `handleMessage` (state effects): normalize and append the incoming
message; reset the idle timer only for a non-automated ASSISTANT message. -/
def handleMessage (f : Features) (s : PluginState) (m : Message) : PluginState :=
  let s1 := { s with messages := addMessage s.messages m }
  if m.role = Role.assistant ∧ m.automated = false then resetActivity f s1 else s1

/-- `endSession`: early return when no session is active; otherwise clear
all four timers and the idle state, disconnect (state `disconnected`), clear
the session identity and emit `session:ended`. -/
def endSession (f : Features) (s : PluginState) : PluginState :=
  if s.sessionActive = false then s
  else
    let s1 := clearIdleTimeoutP (clearSessionTimeoutP s)
    let s2 := { s1 with lastActivityTime := none, idleWarningShown := false }
    let s3 := { s2 with
                  state := .disconnected,
                  emitted := s2.emitted ++ [PluginEvent.stateChange .disconnected] }
    { s3 with sessionActive := false, sessionStartTime := none, sessionId := none,
              emitted := s3.emitted ++ [PluginEvent.sessionEnded] }

/-- `startSession` (success path: `connect()` resolves, microphone start is
non-fatal): adopt the server session id when the engine provides a truthy
one, else generate a client v4 UUID; mark the session active, arm the
session and idle timers, and emit `session:started`. -/
def startSession (f : Features) (serverId : Option String) (rand : Nat → Fin 16)
    (s : PluginState) : PluginState :=
  if s.sessionActive then s
  else
    let s1 := { s with
                  state := ConnectionState.connected,
                  emitted := s.emitted ++
                    [PluginEvent.stateChange .connecting, PluginEvent.stateChange .connected] }
    let sid :=
      match serverId with
      | some sid => if sid = "" then generateSessionId rand else sid
      | none => generateSessionId rand
    let s2 := { s1 with
                  sessionId := some sid, sessionActive := true,
                  sessionStartTime := some s.now }
    let s3 := setupSessionTimeout f s2
    let s4 := setupIdleTimeout f s3
    { s4 with emitted := s4.emitted ++ [PluginEvent.sessionStarted] }

/-- `sendMessage` (state effects on success checks: the optimistic local
user message and the idle-timer reset happen before any delivery attempt,
and are not rolled back if delivery later throws). -/
def sendMessageUser (f : Features) (s : PluginState) (text : String) : PluginState :=
  if s.sessionActive = false then s
  else if s.state ≠ ConnectionState.connected then s
  else resetActivity f { s with messages := addMessage s.messages ⟨Role.user, text, false⟩ }

/-- The four one-shot timers of the session lifecycle. -/
inductive TimerKind
  | sessionWarning
  | sessionHard
  | idle
  | grace
  deriving DecidableEq, Repr

/-- The armed deadline of a timer, if any. -/
def timerDeadline (s : PluginState) : TimerKind → Option Nat
  | .sessionWarning => s.sessionWarningTimer
  | .sessionHard => s.sessionTimeoutTimer
  | .idle => s.idleTimeoutTimer
  | .grace => s.idleGracePeriodTimer

/-- Remove a fired (one-shot) timer. -/
def clearTimer (s : PluginState) : TimerKind → PluginState
  | .sessionWarning => { s with sessionWarningTimer := none }
  | .sessionHard => { s with sessionTimeoutTimer := none }
  | .idle => { s with idleTimeoutTimer := none }
  | .grace => { s with idleGracePeriodTimer := none }

/-- The `setTimeout` callbacks: the session-warning callback emits the
warning if the session is still active; the hard-timeout callback ends the
session and emits `session:timeout`; the idle callback runs
`handleIdleWarning` when the session is active and no warning is pending;
the grace callback ends the session and emits `session:idle-timeout` when
the warning is still unanswered. -/
def fireTimer (f : Features) (s : PluginState) : TimerKind → PluginState
  | .sessionWarning =>
      if s.sessionActive then
        { s with emitted := s.emitted ++ [PluginEvent.sessionTimeoutWarning] }
      else s
  | .sessionHard =>
      if s.sessionActive then
        let s1 := endSession f s
        { s1 with emitted := s1.emitted ++ [PluginEvent.sessionTimeoutFired] }
      else s
  | .idle =>
      if s.sessionActive && !s.idleWarningShown then handleIdleWarning f s else s
  | .grace =>
      if s.sessionActive && s.idleWarningShown then
        let s1 := endSession f s
        { s1 with emitted := s1.emitted ++ [PluginEvent.idleTimeoutFired] }
      else s

/-- The timers due at or before time `t`. -/
def dueTimers (s : PluginState) (t : Nat) : List (TimerKind × Nat) :=
  [TimerKind.sessionWarning, TimerKind.sessionHard, TimerKind.idle,
    TimerKind.grace].filterMap fun k =>
    match timerDeadline s k with
    | some d => if d ≤ t then some (k, d) else none
    | none => none

/-- The next timer to fire: the due timer with the smallest deadline
(registration order breaking ties, matching the JS event loop). -/
def earliestDue (s : PluginState) (t : Nat) : Option (TimerKind × Nat) :=
  (dueTimers s t).foldl
    (fun acc c =>
      match acc with
      | none => some c
      | some b => if c.2 < b.2 then some c else acc)
    none

/-- Fire the next due timer, if any: set the clock to its deadline, remove
the one-shot handle, and run its callback. -/
def fireOne (f : Features) (s : PluginState) (t : Nat) : PluginState :=
  match earliestDue s t with
  | none => s
  | some (k, d) => fireTimer f (clearTimer { s with now := d } k) k

/-- Advance the wall clock to time `t` (never backwards), firing every timer
that becomes due on the way, in deadline order.  Each firing can arm or
clear other timers; at most three timers are armed in any reachable state
and a firing arms at most one more, so six single-steps always reach
quiescence (`fireOne` on a quiescent state is the identity). -/
def elapse (f : Features) (s : PluginState) (t : Nat) : PluginState :=
  let tt := max t s.now
  { fireOne f (fireOne f (fireOne f (fireOne f (fireOne f (fireOne f s tt) tt) tt) tt) tt) tt
      with now := tt }

/-- The externally driven inputs of the session machine: clock advance, a
user `sendMessage`, a message ingested through `handleMessage`, a
`speech:start` engine event (which resets activity), and the public
`resetIdleTimer`. -/
inductive PluginCmd
  | elapseTo (t : Nat)
  | sendMsg (text : String)
  | ingest (m : Message)
  | speechStart
  | manualReset
  deriving DecidableEq, Repr

/-- Dispatch one input. -/
def pluginStep (f : Features) (s : PluginState) : PluginCmd → PluginState
  | .elapseTo t => elapse f s t
  | .sendMsg text => sendMessageUser f s text
  | .ingest m => handleMessage f s m
  | .speechStart => resetActivity f s
  | .manualReset => if s.sessionActive = false then s else resetActivity f s

/-- Run a sequence of inputs. -/
def runPlugin (f : Features) : PluginState → List PluginCmd → PluginState
  | s, [] => s
  | s, c :: cs => runPlugin f (pluginStep f s c) cs

/-- An idle-test configuration: hard session timeout disabled (`null`),
idle timeout `T`, everything else defaulted. -/
def idleConfig (T : Nat) : Features :=
  validateConfig { sessionTimeout := some none, idleTimeout := some T }

/-- The default check-in message record injected by `handleIdleWarning`
under a configuration without a custom `idleCheckMessage`. -/
def checkInMessage : Message :=
  { role := .assistant, content := idleCheckMessageDefault, automated := true }

/-- The check-in message `handleIdleWarning` injects under configuration `f`. -/
def idleCheckIn (f : Features) : Message :=
  { role := .assistant,
    content := f.idleCheckMessage.getD idleCheckMessageDefault,
    automated := true }

lemma handleIdleWarning_eq (f : Features) (s : PluginState) :
    handleIdleWarning f s =
      { s with idleWarningShown := true,
               messages := addMessage s.messages (idleCheckIn f),
               emitted := s.emitted ++ [PluginEvent.idleWarning],
               idleGracePeriodTimer := some (s.now + IDLE_GRACE_PERIOD_MS) } := rfl

lemma endSession_active_eq (f : Features) (s : PluginState) (ha : s.sessionActive = true) :
    endSession f s =
      { s with state := .disconnected, sessionActive := false,
               sessionStartTime := none, sessionId := none, lastActivityTime := none,
               idleWarningShown := false, sessionWarningTimer := none,
               sessionTimeoutTimer := none, idleTimeoutTimer := none,
               idleGracePeriodTimer := none,
               emitted := s.emitted ++
                 [PluginEvent.stateChange .disconnected, PluginEvent.sessionEnded] } := by
  simp [endSession, ha, clearSessionTimeoutP, clearIdleTimeoutP]

lemma resetActivity_eq (f : Features) (s : PluginState) (ha : s.sessionActive = true)
    (hic : f.enableIdleCheck = true) :
    resetActivity f s =
      { s with lastActivityTime := some s.now, idleWarningShown := false,
               idleGracePeriodTimer := none,
               idleTimeoutTimer :=
                 some (s.now + jsOrNat f.idleTimeout DEFAULT_IDLE_TIMEOUT_MS) } := by
  simp [resetActivity, ha, hic]

lemma jsOrNat_pos {x : Nat} (hx : 0 < x) (d : Nat) : jsOrNat x d = x := by
  simp [jsOrNat, Nat.pos_iff_ne_zero.mp hx]

lemma idleConfig_eq (T : Nat) :
    idleConfig T = ⟨none, T, true, 5000, 10, true, none⟩ := rfl

lemma dueTimers_all_clear (s : PluginState) (t : Nat)
    (hw : s.sessionWarningTimer = none) (hh : s.sessionTimeoutTimer = none)
    (hi : s.idleTimeoutTimer = none) (hg : s.idleGracePeriodTimer = none) :
    dueTimers s t = [] := by
  simp [dueTimers, timerDeadline, hw, hh, hi, hg]

lemma dueTimers_idle_only (s : PluginState) (d t : Nat)
    (hw : s.sessionWarningTimer = none) (hh : s.sessionTimeoutTimer = none)
    (hi : s.idleTimeoutTimer = some d) (hg : s.idleGracePeriodTimer = none) :
    dueTimers s t = if d ≤ t then [(TimerKind.idle, d)] else [] := by
  by_cases hd : d ≤ t <;>
    simp [dueTimers, timerDeadline, hw, hh, hi, hg, hd]

lemma dueTimers_grace_only (s : PluginState) (d t : Nat)
    (hw : s.sessionWarningTimer = none) (hh : s.sessionTimeoutTimer = none)
    (hi : s.idleTimeoutTimer = none) (hg : s.idleGracePeriodTimer = some d) :
    dueTimers s t = if d ≤ t then [(TimerKind.grace, d)] else [] := by
  by_cases hd : d ≤ t <;>
    simp [dueTimers, timerDeadline, hw, hh, hi, hg, hd]

lemma earliestDue_nil {s : PluginState} {t : Nat} (h : dueTimers s t = []) :
    earliestDue s t = none := by
  simp [earliestDue, h]

lemma earliestDue_single {s : PluginState} {t : Nat} {k : TimerKind} {d : Nat}
    (h : dueTimers s t = [(k, d)]) : earliestDue s t = some (k, d) := by
  simp [earliestDue, h]

lemma fireOne_none {f : Features} {s : PluginState} {t : Nat}
    (h : earliestDue s t = none) : fireOne f s t = s := by
  simp [fireOne, h]

lemma fireOne_some {f : Features} {s : PluginState} {t : Nat} {k : TimerKind} {d : Nat}
    (h : earliestDue s t = some (k, d)) :
    fireOne f s t = fireTimer f (clearTimer { s with now := d } k) k := by
  simp [fireOne, h]

/-- No timer due up to `max t s.now`: `elapse` only moves the clock. -/
lemma elapse_quiescent (f : Features) (s : PluginState) (t : Nat)
    (h : dueTimers s (max t s.now) = []) :
    elapse f s t = { s with now := max t s.now } := by
  have hf : fireOne f s (max t s.now) = s := fireOne_none (earliestDue_nil h)
  simp only [elapse, hf]

/-- Only the idle timer is armed and due (and the grace deadline it arms is
not yet due): `elapse` fires the idle warning exactly once. -/
lemma elapse_idle_fires (f : Features) (s : PluginState) (d t : Nat)
    (hw : s.sessionWarningTimer = none) (hh : s.sessionTimeoutTimer = none)
    (hi : s.idleTimeoutTimer = some d) (hg : s.idleGracePeriodTimer = none)
    (ha : s.sessionActive = true) (hws : s.idleWarningShown = false)
    (hd : d ≤ max t s.now) (hg2 : max t s.now < d + IDLE_GRACE_PERIOD_MS) :
    elapse f s t =
      { s with now := max t s.now, idleWarningShown := true,
               idleTimeoutTimer := none,
               idleGracePeriodTimer := some (d + IDLE_GRACE_PERIOD_MS),
               messages := addMessage s.messages (idleCheckIn f),
               emitted := s.emitted ++ [PluginEvent.idleWarning] } := by
  simp only [elapse]
  set tt := max t s.now with htt
  have h1 : earliestDue s tt = some (TimerKind.idle, d) :=
    earliestDue_single (by rw [dueTimers_idle_only s d tt hw hh hi hg, if_pos hd])
  have hs1 : fireOne f s tt =
      { s with now := d, idleWarningShown := true,
               idleTimeoutTimer := none,
               idleGracePeriodTimer := some (d + IDLE_GRACE_PERIOD_MS),
               messages := addMessage s.messages (idleCheckIn f),
               emitted := s.emitted ++ [PluginEvent.idleWarning] } := by
    rw [fireOne_some h1]
    simp [fireTimer, clearTimer, ha, hws, handleIdleWarning_eq, idleCheckIn]
  have h2 : dueTimers (fireOne f s tt) tt = [] := by
    rw [hs1]
    rw [dueTimers_grace_only _ (d + IDLE_GRACE_PERIOD_MS) tt (by simp [hw]) (by simp [hh])
      (by simp) (by simp)]
    rw [if_neg (by omega)]
  have hf2 : fireOne f (fireOne f s tt) tt = fireOne f s tt :=
    fireOne_none (earliestDue_nil h2)
  simp only [hf2]
  rw [hs1]

/-- Only the idle timer is armed, and the wall clock jumps past both the
idle deadline and the grace deadline it arms: the warning fires at `d` and
the unanswered grace timer then auto-ends the session. -/
lemma elapse_idle_then_grace (f : Features) (s : PluginState) (d t : Nat)
    (hw : s.sessionWarningTimer = none) (hh : s.sessionTimeoutTimer = none)
    (hi : s.idleTimeoutTimer = some d) (hg : s.idleGracePeriodTimer = none)
    (ha : s.sessionActive = true) (hws : s.idleWarningShown = false)
    (hgd : d + IDLE_GRACE_PERIOD_MS ≤ max t s.now) :
    elapse f s t =
      { s with now := max t s.now, state := .disconnected, sessionActive := false,
               sessionStartTime := none, sessionId := none, lastActivityTime := none,
               idleWarningShown := false, sessionWarningTimer := none,
               sessionTimeoutTimer := none, idleTimeoutTimer := none,
               idleGracePeriodTimer := none,
               messages := addMessage s.messages (idleCheckIn f),
               emitted := s.emitted ++ [PluginEvent.idleWarning,
                 PluginEvent.stateChange .disconnected, PluginEvent.sessionEnded,
                 PluginEvent.idleTimeoutFired] } := by
  simp only [elapse]
  set tt := max t s.now with htt
  have hd : d ≤ tt := by
    have : (0 : Nat) < IDLE_GRACE_PERIOD_MS := by decide
    omega
  have h1 : earliestDue s tt = some (TimerKind.idle, d) :=
    earliestDue_single (by rw [dueTimers_idle_only s d tt hw hh hi hg, if_pos hd])
  have hs1 : fireOne f s tt =
      { s with now := d, idleWarningShown := true,
               idleTimeoutTimer := none,
               idleGracePeriodTimer := some (d + IDLE_GRACE_PERIOD_MS),
               messages := addMessage s.messages (idleCheckIn f),
               emitted := s.emitted ++ [PluginEvent.idleWarning] } := by
    rw [fireOne_some h1]
    simp [fireTimer, clearTimer, ha, hws, handleIdleWarning_eq, idleCheckIn]
  have h2 : earliestDue (fireOne f s tt) tt
      = some (TimerKind.grace, d + IDLE_GRACE_PERIOD_MS) := by
    apply earliestDue_single
    rw [hs1]
    rw [dueTimers_grace_only _ (d + IDLE_GRACE_PERIOD_MS) tt (by simp [hw]) (by simp [hh])
      (by simp) (by simp)]
    rw [if_pos hgd]
  have hs2 : fireOne f (fireOne f s tt) tt =
      { s with now := d + IDLE_GRACE_PERIOD_MS, state := .disconnected,
               sessionActive := false, sessionStartTime := none, sessionId := none,
               lastActivityTime := none, idleWarningShown := false,
               sessionWarningTimer := none, sessionTimeoutTimer := none,
               idleTimeoutTimer := none, idleGracePeriodTimer := none,
               messages := addMessage s.messages (idleCheckIn f),
               emitted := s.emitted ++ [PluginEvent.idleWarning,
                 PluginEvent.stateChange .disconnected, PluginEvent.sessionEnded,
                 PluginEvent.idleTimeoutFired] } := by
    rw [fireOne_some h2, hs1]
    simp [fireTimer, clearTimer, ha, endSession_active_eq]
  have h3 : dueTimers (fireOne f (fireOne f s tt) tt) tt = [] := by
    rw [hs2]
    exact dueTimers_all_clear _ tt (by simp) (by simp) (by simp) (by simp)
  have hf3 : fireOne f (fireOne f (fireOne f s tt) tt) tt = fireOne f (fireOne f s tt) tt :=
    fireOne_none (earliestDue_nil h3)
  simp only [hf3]
  rw [hs2]

lemma startSession_idle (T : Nat) (hT : 0 < T) :
    startSession (idleConfig T) none rand0 initialState =
      { now := 0, state := .connected, sessionActive := true, sessionStartTime := some 0,
        sessionId := some (generateSessionId rand0), lastActivityTime := some 0,
        idleWarningShown := false, sessionWarningTimer := none, sessionTimeoutTimer := none,
        idleTimeoutTimer := some T, idleGracePeriodTimer := none, messages := [],
        emitted := [PluginEvent.stateChange .connecting, PluginEvent.stateChange .connected,
          PluginEvent.sessionStarted] } := by
  simp [startSession, initialState, setupSessionTimeout, setupIdleTimeout,
    clearSessionTimeoutP, clearIdleTimeoutP, idleConfig_eq, jsOrNat_pos hT]

/-- Start a session under `idleConfig T` and run the given inputs. -/
def idleRun (T : Nat) (cmds : List PluginCmd) : PluginState :=
  runPlugin (idleConfig T) (startSession (idleConfig T) none rand0 initialState) cmds

/-- A non-automated user-role message, as ingested from a transport or the
voice transcription path. -/
def userHello : Message := ⟨Role.user, "hello", false⟩

/-- C6 counterexample: with idle timeout `T = 1000`, a non-automated
USER-role message ingested through `handleMessage` at `t = 500` is NOT
qualifying activity — `handleMessage` only resets the idle timer for
assistant messages — so the idle deadline stays at 1000 and the idle warning
fires at `T` even though, per the claim, activity occurred before `T`
elapsed. -/
theorem idle_reset_claim_counterexample :
    PluginEvent.idleWarning ∈
      (idleRun 1000 [.elapseTo 500, .ingest userHello, .elapseTo 1000]).emitted ∧
    (idleRun 1000 [.elapseTo 500, .ingest userHello]).idleTimeoutTimer = some 1000 ∧
    userHello ∈ (idleRun 1000 [.elapseTo 500, .ingest userHello]).messages := by
  refine ⟨?_, ?_, ?_⟩ <;> decide

lemma mem_addMessage_self {α : Type} (l : List α) (m : α) : m ∈ addMessage l m := by
  rw [addMessage_eq_drop]
  have hM : MAX_MESSAGES = 100 := rfl
  have hk : (l ++ [m]).length - MAX_MESSAGES ≤ l.length := by
    simp only [List.length_append, List.length_singleton]; omega
  rw [List.drop_append_of_le_length hk]
  exact List.mem_append_right _ (List.mem_singleton_self m)

/-- C6 (amended): under an active session with idle timeout `T` and idle
checking enabled (`idleConfig T`): (i) without activity no idle warning
fires before `T`; (ii) a user message sent through `sendMessage` at
`t1 < T` re-arms the idle timer at `t1 + T`, and no warning fires through
any `t2 < t1 + T`; (iii) the same holds for a non-automated ASSISTANT
message ingested through `handleMessage` (a user-role ingested message does
NOT qualify — see the counterexample); (iv) with no activity for `T`, the
controller injects the automated assistant check-in, emits the idle-warning
event, keeps the session active, and arms the grace timer at
`T + 60000`; (v) with still no activity through the grace period, the
session is ended automatically and the idle-timeout event is emitted. -/
theorem idle_timeout_behavior (T t1 t2 : Nat) (hT : 0 < T) (h1 : t1 < T)
    (h2 : t2 < t1 + T) :
    PluginEvent.idleWarning ∉ (idleRun T [.elapseTo t1]).emitted ∧
    PluginEvent.idleWarning ∉
      (idleRun T [.elapseTo t1, .sendMsg "x", .elapseTo t2]).emitted ∧
    PluginEvent.idleWarning ∉
      (idleRun T [.elapseTo t1, .ingest ⟨Role.assistant, "r", false⟩,
        .elapseTo t2]).emitted ∧
    (PluginEvent.idleWarning ∈ (idleRun T [.elapseTo T]).emitted ∧
      checkInMessage ∈ (idleRun T [.elapseTo T]).messages ∧
      (idleRun T [.elapseTo T]).idleGracePeriodTimer
        = some (T + IDLE_GRACE_PERIOD_MS) ∧
      (idleRun T [.elapseTo T]).sessionActive = true ∧
      PluginEvent.sessionEnded ∉ (idleRun T [.elapseTo T]).emitted) ∧
    ((idleRun T [.elapseTo (T + IDLE_GRACE_PERIOD_MS)]).sessionActive = false ∧
      PluginEvent.idleTimeoutFired ∈
        (idleRun T [.elapseTo (T + IDLE_GRACE_PERIOD_MS)]).emitted ∧
      PluginEvent.sessionEnded ∈
        (idleRun T [.elapseTo (T + IDLE_GRACE_PERIOD_MS)]).emitted) := by
  have h0 := startSession_idle T hT
  have hmax1 : max t1 (0 : Nat) = t1 := Nat.max_zero t1
  -- state after [.elapseTo t1]
  have eA : idleRun T [.elapseTo t1] =
      { now := t1, state := .connected, sessionActive := true, sessionStartTime := some 0,
        sessionId := some (generateSessionId rand0), lastActivityTime := some 0,
        idleWarningShown := false, sessionWarningTimer := none, sessionTimeoutTimer := none,
        idleTimeoutTimer := some T, idleGracePeriodTimer := none, messages := [],
        emitted := [PluginEvent.stateChange .connecting, PluginEvent.stateChange .connected,
          PluginEvent.sessionStarted] } := by
    simp only [idleRun, runPlugin, pluginStep]
    rw [h0]
    rw [elapse_quiescent _ _ _ (by
      rw [dueTimers_idle_only _ T _ rfl rfl rfl rfl, if_neg (by simp [hmax1]; omega)])]
    simp [hmax1]
  -- state after the user sendMessage at t1
  have eB : idleRun T [.elapseTo t1, .sendMsg "x"] =
      { now := t1, state := .connected, sessionActive := true, sessionStartTime := some 0,
        sessionId := some (generateSessionId rand0), lastActivityTime := some t1,
        idleWarningShown := false, sessionWarningTimer := none, sessionTimeoutTimer := none,
        idleTimeoutTimer := some (t1 + T), idleGracePeriodTimer := none,
        messages := addMessage [] ⟨Role.user, "x", false⟩,
        emitted := [PluginEvent.stateChange .connecting, PluginEvent.stateChange .connected,
          PluginEvent.sessionStarted] } := by
    have : idleRun T [.elapseTo t1, .sendMsg "x"]
        = pluginStep (idleConfig T) (idleRun T [.elapseTo t1]) (.sendMsg "x") := by
      simp [idleRun, runPlugin, pluginStep]
    rw [this, eA]
    simp only [pluginStep, sendMessageUser]
    rw [if_neg (by simp), if_neg (by simp)]
    rw [resetActivity_eq _ _ rfl rfl]
    simp [idleConfig_eq, jsOrNat_pos hT]
  -- state after the assistant ingest at t1
  have eC : idleRun T [.elapseTo t1, .ingest ⟨Role.assistant, "r", false⟩] =
      { now := t1, state := .connected, sessionActive := true, sessionStartTime := some 0,
        sessionId := some (generateSessionId rand0), lastActivityTime := some t1,
        idleWarningShown := false, sessionWarningTimer := none, sessionTimeoutTimer := none,
        idleTimeoutTimer := some (t1 + T), idleGracePeriodTimer := none,
        messages := addMessage [] ⟨Role.assistant, "r", false⟩,
        emitted := [PluginEvent.stateChange .connecting, PluginEvent.stateChange .connected,
          PluginEvent.sessionStarted] } := by
    have : idleRun T [.elapseTo t1, .ingest ⟨Role.assistant, "r", false⟩]
        = pluginStep (idleConfig T) (idleRun T [.elapseTo t1])
            (.ingest ⟨Role.assistant, "r", false⟩) := by
      simp [idleRun, runPlugin, pluginStep]
    rw [this, eA]
    simp only [pluginStep, handleMessage]
    rw [if_pos (by simp)]
    rw [resetActivity_eq _ _ rfl rfl]
    simp [idleConfig_eq, jsOrNat_pos hT]
  have hmaxB : max t2 t1 < t1 + T := Nat.max_lt.mpr ⟨h2, by omega⟩
  refine ⟨?_, ?_, ?_, ?_, ?_⟩
  · rw [eA]; simp
  · have : idleRun T [.elapseTo t1, .sendMsg "x", .elapseTo t2]
        = pluginStep (idleConfig T) (idleRun T [.elapseTo t1, .sendMsg "x"])
            (.elapseTo t2) := by
      simp [idleRun, runPlugin, pluginStep]
    rw [this, eB]
    simp only [pluginStep]
    rw [elapse_quiescent _ _ _ (by
      rw [dueTimers_idle_only _ (t1 + T) _ rfl rfl rfl rfl,
        if_neg (by simp only []; omega)])]
    simp
  · have : idleRun T [.elapseTo t1, .ingest ⟨Role.assistant, "r", false⟩, .elapseTo t2]
        = pluginStep (idleConfig T)
            (idleRun T [.elapseTo t1, .ingest ⟨Role.assistant, "r", false⟩])
            (.elapseTo t2) := by
      simp [idleRun, runPlugin, pluginStep]
    rw [this, eC]
    simp only [pluginStep]
    rw [elapse_quiescent _ _ _ (by
      rw [dueTimers_idle_only _ (t1 + T) _ rfl rfl rfl rfl,
        if_neg (by simp only []; omega)])]
    simp
  · have eD : idleRun T [.elapseTo T] =
        { now := T, state := .connected, sessionActive := true, sessionStartTime := some 0,
          sessionId := some (generateSessionId rand0), lastActivityTime := some 0,
          idleWarningShown := true, sessionWarningTimer := none, sessionTimeoutTimer := none,
          idleTimeoutTimer := none,
          idleGracePeriodTimer := some (T + IDLE_GRACE_PERIOD_MS),
          messages := addMessage [] (idleCheckIn (idleConfig T)),
          emitted := [PluginEvent.stateChange .connecting, PluginEvent.stateChange .connected,
            PluginEvent.sessionStarted, PluginEvent.idleWarning] } := by
      simp only [idleRun, runPlugin, pluginStep]
      rw [h0]
      rw [elapse_idle_fires _ _ T T rfl rfl rfl rfl rfl rfl
        (by simp) (by simp; decide)]
      simp
    rw [eD]
    refine ⟨by simp, ?_, rfl, rfl, by simp⟩
    exact mem_addMessage_self [] (idleCheckIn (idleConfig T))
  · have eE : idleRun T [.elapseTo (T + IDLE_GRACE_PERIOD_MS)] =
        { now := T + IDLE_GRACE_PERIOD_MS, state := .disconnected, sessionActive := false,
          sessionStartTime := none, sessionId := none, lastActivityTime := none,
          idleWarningShown := false, sessionWarningTimer := none, sessionTimeoutTimer := none,
          idleTimeoutTimer := none, idleGracePeriodTimer := none,
          messages := addMessage [] (idleCheckIn (idleConfig T)),
          emitted := [PluginEvent.stateChange .connecting, PluginEvent.stateChange .connected,
            PluginEvent.sessionStarted, PluginEvent.idleWarning,
            PluginEvent.stateChange .disconnected, PluginEvent.sessionEnded,
            PluginEvent.idleTimeoutFired] } := by
      simp only [idleRun, runPlugin, pluginStep]
      rw [h0]
      rw [elapse_idle_then_grace _ _ T (T + IDLE_GRACE_PERIOD_MS) rfl rfl rfl rfl rfl rfl
        (by simp)]
      simp
    rw [eE]
    exact ⟨rfl, by simp, by simp⟩

/-- Witness for C6 (amended) at `T = 1000`, `t1 = 500`, `t2 = 1400`: the
idle warning fires at exactly `T = 1000` when no activity occurs. -/
theorem idle_timeout_behavior_witness :
    PluginEvent.idleWarning ∈ (idleRun 1000 [.elapseTo 1000]).emitted ∧
    PluginEvent.idleWarning ∉
      (idleRun 1000 [.elapseTo 500, .sendMsg "x", .elapseTo 1400]).emitted :=
  ⟨(idle_timeout_behavior 1000 500 1400 (by decide) (by decide) (by decide)).2.2.2.1.1,
    (idle_timeout_behavior 1000 500 1400 (by decide) (by decide) (by decide)).2.1⟩

/-- C7: `endSession()` with no active session is a no-op — it returns after
the early `return`, emitting nothing and leaving every field of the
controller state (connection state, history, session fields, timers)
unchanged. -/
theorem endSession_inactive_noop (f : Features) (s : PluginState)
    (h : s.sessionActive = false) : endSession f s = s := by
  simp [endSession, h]

/-- Witness for C7: ending a session on the fresh controller state changes
nothing. -/
theorem endSession_inactive_noop_witness :
    endSession (validateConfig {}) initialState = initialState :=
  endSession_inactive_noop (validateConfig {}) initialState rfl

/-! ### Session id format (`generateSessionId`, C8) -/

/-- Whether a character is a lowercase hex digit (`0`-`9` or `a`-`f`,
by character code). -/
def isHexDigit (c : Char) : Bool :=
  (decide (48 ≤ c.toNat) && decide (c.toNat ≤ 57)) ||
  (decide (97 ≤ c.toNat) && decide (c.toNat ≤ 102))

/-- v4-UUID format: 36 characters in five dash-separated groups
(8-4-4-4-12), all hex, with version nibble `'4'` at position 14 and variant
nibble in `{8,9,a,b}` at position 19. -/
def isV4UUID (s : String) : Bool :=
  match s.data with
  | a0 :: a1 :: a2 :: a3 :: a4 :: a5 :: a6 :: a7 :: d0 ::
    b0 :: b1 :: b2 :: b3 :: d1 :: v0 :: c0 :: c1 :: c2 :: d2 ::
    y0 :: e0 :: e1 :: e2 :: d3 ::
    g0 :: g1 :: g2 :: g3 :: g4 :: g5 :: g6 :: g7 :: g8 :: g9 :: g10 :: g11 :: [] =>
      d0 == '-' && d1 == '-' && d2 == '-' && d3 == '-' && v0 == '4' &&
      (y0 == '8' || y0 == '9' || y0 == 'a' || y0 == 'b') &&
      isHexDigit a0 && isHexDigit a1 && isHexDigit a2 && isHexDigit a3 &&
      isHexDigit a4 && isHexDigit a5 && isHexDigit a6 && isHexDigit a7 &&
      isHexDigit b0 && isHexDigit b1 && isHexDigit b2 && isHexDigit b3 &&
      isHexDigit c0 && isHexDigit c1 && isHexDigit c2 &&
      isHexDigit e0 && isHexDigit e1 && isHexDigit e2 &&
      isHexDigit g0 && isHexDigit g1 && isHexDigit g2 && isHexDigit g3 &&
      isHexDigit g4 && isHexDigit g5 && isHexDigit g6 && isHexDigit g7 &&
      isHexDigit g8 && isHexDigit g9 && isHexDigit g10 && isHexDigit g11
  | _ => false

lemma generateSessionId_eq (rand : Nat → Fin 16) :
    generateSessionId rand = String.mk
      [hexChar (rand 0).val, hexChar (rand 1).val, hexChar (rand 2).val,
       hexChar (rand 3).val, hexChar (rand 4).val, hexChar (rand 5).val,
       hexChar (rand 6).val, hexChar (rand 7).val, '-',
       hexChar (rand 8).val, hexChar (rand 9).val, hexChar (rand 10).val,
       hexChar (rand 11).val, '-', '4',
       hexChar (rand 12).val, hexChar (rand 13).val, hexChar (rand 14).val, '-',
       hexChar (((rand 15).val &&& 3) ||| 8),
       hexChar (rand 16).val, hexChar (rand 17).val, hexChar (rand 18).val, '-',
       hexChar (rand 19).val, hexChar (rand 20).val, hexChar (rand 21).val,
       hexChar (rand 22).val, hexChar (rand 23).val, hexChar (rand 24).val,
       hexChar (rand 25).val, hexChar (rand 26).val, hexChar (rand 27).val,
       hexChar (rand 28).val, hexChar (rand 29).val, hexChar (rand 30).val] := rfl

lemma isHexDigit_hexChar : ∀ r : Fin 16, isHexDigit (hexChar r.val) = true := by decide

lemma variant_hexChar : ∀ r : Fin 16,
    (hexChar ((r.val &&& 3) ||| 8) == '8' || hexChar ((r.val &&& 3) ||| 8) == '9' ||
     hexChar ((r.val &&& 3) ||| 8) == 'a' || hexChar ((r.val &&& 3) ||| 8) == 'b')
      = true := by decide

lemma generateSessionId_isV4 (rand : Nat → Fin 16) :
    isV4UUID (generateSessionId rand) = true := by
  rw [generateSessionId_eq]
  simp [isV4UUID, isHexDigit_hexChar, variant_hexChar]

lemma setupSessionTimeout_sessionId (f : Features) (s : PluginState) :
    (setupSessionTimeout f s).sessionId = s.sessionId := by
  cases hst : f.sessionTimeout with
  | none => simp [setupSessionTimeout, clearSessionTimeoutP, hst]
  | some st =>
      simp only [setupSessionTimeout, clearSessionTimeoutP, hst]
      split <;> simp

lemma setupSessionTimeout_sessionActive (f : Features) (s : PluginState) :
    (setupSessionTimeout f s).sessionActive = s.sessionActive := by
  cases hst : f.sessionTimeout with
  | none => simp [setupSessionTimeout, clearSessionTimeoutP, hst]
  | some st =>
      simp only [setupSessionTimeout, clearSessionTimeoutP, hst]
      split <;> simp

lemma setupIdleTimeout_sessionId (f : Features) (s : PluginState) :
    (setupIdleTimeout f s).sessionId = s.sessionId := by
  simp only [setupIdleTimeout, clearIdleTimeoutP]
  split <;> simp

lemma setupIdleTimeout_sessionActive (f : Features) (s : PluginState) :
    (setupIdleTimeout f s).sessionActive = s.sessionActive := by
  simp only [setupIdleTimeout, clearIdleTimeoutP]
  split <;> simp

lemma startSession_sessionActive (f : Features) (serverId : Option String)
    (rand : Nat → Fin 16) (s : PluginState) (h : s.sessionActive = false) :
    (startSession f serverId rand s).sessionActive = true := by
  simp [startSession, h, setupIdleTimeout_sessionActive, setupSessionTimeout_sessionActive]

lemma startSession_sessionId_eq (f : Features) (serverId : Option String)
    (rand : Nat → Fin 16) (s : PluginState) (h : s.sessionActive = false) :
    (startSession f serverId rand s).sessionId
      = some (match serverId with
              | some sid => if sid = "" then generateSessionId rand else sid
              | none => generateSessionId rand) := by
  simp [startSession, h, setupIdleTimeout_sessionId, setupSessionTimeout_sessionId]

/-- C8: after a successful `startSession()`, the active session id is the
server-provided (truthy) id when the voice engine supplies one, and
otherwise a freshly client-generated identifier in v4-UUID format (version
nibble `'4'`, variant nibble in `{8,9,a,b}`); after a subsequent
`endSession()` the session id is `null`. -/
theorem startSession_sessionId_spec (f : Features) (serverId : Option String)
    (rand : Nat → Fin 16) (s : PluginState) (h : s.sessionActive = false) :
    ((∃ sid, serverId = some sid ∧ sid ≠ "" ∧
        (startSession f serverId rand s).sessionId = some sid) ∨
      ((startSession f serverId rand s).sessionId = some (generateSessionId rand) ∧
        isV4UUID (generateSessionId rand) = true)) ∧
    (endSession f (startSession f serverId rand s)).sessionId = none := by
  constructor
  · cases serverId with
    | none =>
        right
        rw [startSession_sessionId_eq f none rand s h]
        exact ⟨rfl, generateSessionId_isV4 rand⟩
    | some sid =>
        by_cases hemp : sid = ""
        · right
          rw [startSession_sessionId_eq f (some sid) rand s h]
          exact ⟨by simp [hemp], generateSessionId_isV4 rand⟩
        · left
          refine ⟨sid, rfl, hemp, ?_⟩
          rw [startSession_sessionId_eq f (some sid) rand s h]
          simp [hemp]
  · rw [endSession_active_eq f _ (startSession_sessionActive f serverId rand s h)]

/-- Witness for C8: with a server-provided id `"srv-1"` the controller
adopts it, and ending the session clears it. -/
theorem startSession_sessionId_spec_witness :
    ((∃ sid, (some "srv-1" : Option String) = some sid ∧ sid ≠ "" ∧
        (startSession (validateConfig {}) (some "srv-1") rand0 initialState).sessionId
          = some sid) ∨
      ((startSession (validateConfig {}) (some "srv-1") rand0 initialState).sessionId
          = some (generateSessionId rand0) ∧
        isV4UUID (generateSessionId rand0) = true)) ∧
    (endSession (validateConfig {})
        (startSession (validateConfig {}) (some "srv-1") rand0 initialState)).sessionId
      = none :=
  startSession_sessionId_spec (validateConfig {}) (some "srv-1") rand0 initialState rfl
